import Mathlib

/-!
Shallow embedding of the ham-radio-compass core logic: the magnetometer
heading computation (`calculateHeading`, `getDirection`) and the Maidenhead
grid-locator encoder (`latLonToMaiden8`) together with the case
post-processing applied in the GPS callback.  JS numbers are modelled by ℝ
where transcendental functions appear (atan2, π) and by ℚ in the purely
rational encoder; the JS remainder operator `%` is modelled by `jsMod`
(truncated division, the ECMAScript semantics), JS string indexing
`s[i]` by `jsIndex` (yielding the string "undefined" out of bounds, as JS
string concatenation would render it).
-/

namespace HamCompass

open Real

/-- A 3-axis magnetometer sample, as delivered to `calculateHeading`. -/
structure MagneticSample where
  x : ℝ
  y : ℝ
  z : ℝ

/-- Four-quadrant arctangent: the semantics of JS `Math.atan2 y x`
(zero at the origin, matching `Math.atan2(0,0) = 0`). -/
noncomputable def atan2 (y x : ℝ) : ℝ :=
  if 0 < x then arctan (y / x)
  else if x < 0 ∧ 0 ≤ y then arctan (y / x) + π
  else if x < 0 ∧ y < 0 then arctan (y / x) - π
  else if x = 0 ∧ 0 < y then π / 2
  else if x = 0 ∧ y < 0 then -(π / 2)
  else 0

/-- `calculateHeading` from the app:
`angle = atan2(-y, x) * 180/π; angle = angle >= 0 ? angle : 360 + angle;
return Math.round(angle)`.  `Math.round` is `round` (floor of x + 1/2). -/
noncomputable def calculateHeading (data : MagneticSample) : ℤ :=
  let angle := atan2 (-data.y) data.x * (180 / π)
  round (if 0 ≤ angle then angle else 360 + angle)

/-- `getDirection` from the app, an if-chain over the (integer) heading. -/
def getDirection (angle : ℤ) : String :=
  if 337 ≤ angle ∨ angle ≤ 22 then "N"
  else if 22 < angle ∧ angle ≤ 67 then "NE"
  else if 67 < angle ∧ angle ≤ 112 then "E"
  else if 112 < angle ∧ angle ≤ 157 then "SE"
  else if 157 < angle ∧ angle ≤ 202 then "S"
  else if 202 < angle ∧ angle ≤ 247 then "SW"
  else if 247 < angle ∧ angle ≤ 292 then "W"
  else if 292 < angle ∧ angle < 337 then "NW"
  else ""

/-- Truncation toward zero of a rational, as JS division inside `%` does. -/
def ratTrunc (q : ℚ) : ℤ :=
  if 0 ≤ q then ⌊q⌋ else ⌈q⌉

/-- The ECMAScript remainder operator `x % y`: `x - y * trunc (x / y)`
(the result carries the sign of the dividend). -/
def jsMod (x y : ℚ) : ℚ :=
  x - y * ratTrunc (x / y)

/-- JS string indexing `s[i]` followed by string concatenation: a single
character in bounds, the text "undefined" out of bounds. -/
def jsIndex (s : String) (i : ℤ) : String :=
  if i < 0 then "undefined"
  else
    match s.data.get? i.toNat with
    | some c => String.singleton c
    | none => "undefined"

/-- The uppercase alphabet `A` of `latLonToMaiden8`. -/
def A : String := "ABCDEFGHIJKLMNOPQRSTUVWXYZ"

/-- The lowercase alphabet `a` of `latLonToMaiden8`. -/
def a : String := "abcdefghijklmnopqrstuvwxyz"

/-- `lonField = Math.floor(lon / 20)` after `lon += 180`. -/
def lonFieldIdx (lon : ℚ) : ℤ := ⌊(lon + 180) / 20⌋

/-- `latField = Math.floor(lat / 10)` after `lat += 90`. -/
def latFieldIdx (lat : ℚ) : ℤ := ⌊(lat + 90) / 10⌋

/-- `lonSquare = Math.floor((lon % 20) / 2)`. -/
def lonSquareIdx (lon : ℚ) : ℤ := ⌊jsMod (lon + 180) 20 / 2⌋

/-- `latSquare = Math.floor((lat % 10) / 1)`. -/
def latSquareIdx (lat : ℚ) : ℤ := ⌊jsMod (lat + 90) 10 / 1⌋

/-- `lonSub = Math.floor(((lon % 2) / 2) * 24)`. -/
def lonSubIdx (lon : ℚ) : ℤ := ⌊jsMod (lon + 180) 2 / 2 * 24⌋

/-- `latSub = Math.floor((lat % 1) * 24)`. -/
def latSubIdx (lat : ℚ) : ℤ := ⌊jsMod (lat + 90) 1 * 24⌋

/-- `lonExt = Math.floor((((lon * 60) % 2) * 60) / 5)`. -/
def lonExtIdx (lon : ℚ) : ℤ := ⌊jsMod ((lon + 180) * 60) 2 * 60 / 5⌋

/-- `latExt = Math.floor((((lat * 60) % 2.5) * 60) / 5)`. -/
def latExtIdx (lat : ℚ) : ℤ := ⌊jsMod ((lat + 90) * 60) (5 / 2) * 60 / 5⌋

/-- `latLonToMaiden8` from the app: shift `lon` by +180 and `lat` by +90,
compute the eight indices, and concatenate
`A[lonField] + A[latField] + lonSquare + latSquare + a[lonSub] + a[latSub] +
lonExt + latExt` (digit indices rendered by `toString`). -/
def latLonToMaiden8 (lat lon : ℚ) : String :=
  jsIndex A (lonFieldIdx lon) ++ jsIndex A (latFieldIdx lat) ++
    toString (lonSquareIdx lon) ++ toString (latSquareIdx lat) ++
    jsIndex a (lonSubIdx lon) ++ jsIndex a (latSubIdx lat) ++
    toString (lonExtIdx lon) ++ toString (latExtIdx lat)

/-- JS `s.slice(i, j)` for `0 ≤ i ≤ j`. -/
def jsSlice (s : String) (i j : Nat) : String :=
  String.mk ((s.data.drop i).take (j - i))

/-- JS `s.toUpperCase()` on ASCII text. -/
def jsToUpperCase (s : String) : String :=
  String.mk (s.data.map Char.toUpper)

/-- JS `s.toLowerCase()` on ASCII text. -/
def jsToLowerCase (s : String) : String :=
  String.mk (s.data.map Char.toLower)

/-- The `formatted` grid string built in the GPS callback of `startWatching`:
`maiden.slice(0,2).toUpperCase() + maiden.slice(2,4) +
maiden.slice(4,6).toLowerCase() + maiden.slice(6,8)`. -/
def formattedGrid (lat lon : ℚ) : String :=
  let maiden := latLonToMaiden8 lat lon
  jsToUpperCase (jsSlice maiden 0 2) ++ jsSlice maiden 2 4 ++
    jsToLowerCase (jsSlice maiden 4 6) ++ jsSlice maiden 6 8

/-! ### Heading-side theorems -/

/-- C1: the claim says `calculateHeading` always returns a value in
[0,359], a raw angle that rounds to 360 being wrapped to 0.  The code
applies no wrap, and the input {x:200, y:1, z:0} makes it return 360:
`atan2(-1,200)·180/π ∈ (-1/2, 0)`, so after the `+360` correction the
angle lies in (359.5, 360) and `Math.round` yields 360.  This theorem
evaluates the code at that failing input. -/
theorem heading_reaches_360_at_x200_y1 : calculateHeading ⟨200, 1, 0⟩ = 360 := by
  have hpi : (0:ℝ) < π := pi_pos
  have ht0 : 0 < arctan ((1:ℝ) / 200) := by
    rw [← arctan_zero]
    exact arctan_strictMono (by norm_num)
  have htlt : arctan ((1:ℝ) / 200) < 1 / 200 := by
    have h2 : arctan ((1:ℝ) / 200) < π / 2 := arctan_lt_pi_div_two _
    have h3 := lt_tan ht0 h2
    rwa [tan_arctan] at h3
  have hangle : atan2 (-(1:ℝ)) 200 = -arctan (1 / 200) := by
    rw [atan2, if_pos (by norm_num : (0:ℝ) < 200),
      show (-(1:ℝ)) / 200 = -(1 / 200) by ring, arctan_neg]
  have hb : (180 / π) * arctan ((1:ℝ) / 200) < 1 / 2 := by
    have h1 : (180 / π) * arctan ((1:ℝ) / 200) < (180 / π) * (1 / 200) :=
      mul_lt_mul_of_pos_left htlt (by positivity)
    have h2 : (180 / π) * ((1:ℝ) / 200) < 1 / 2 := by
      rw [div_mul_eq_mul_div, div_lt_iff₀ hpi]
      nlinarith [pi_gt_three]
    linarith
  have hpos : 0 < (180 / π) * arctan ((1:ℝ) / 200) := mul_pos (by positivity) ht0
  have hcond : ¬ (0:ℝ) ≤ atan2 (-(1:ℝ)) 200 * (180 / π) := by
    rw [hangle]
    nlinarith
  show round (if 0 ≤ atan2 (-(1:ℝ)) 200 * (180 / π) then atan2 (-(1:ℝ)) 200 * (180 / π)
      else 360 + atan2 (-(1:ℝ)) 200 * (180 / π)) = 360
  rw [if_neg hcond, hangle, round_eq, Int.floor_eq_iff]
  push_cast
  constructor
  · nlinarith
  · nlinarith

/-- C7: `computeHeading({x:1,y:0,z:0})` returns 0 and
`computeHeading({x:0,y:-1,z:0})` returns 90 (the rounding of
`atan2(1,0)·180/π = 90`). -/
theorem calculateHeading_reference_points :
    calculateHeading ⟨1, 0, 0⟩ = 0 ∧ calculateHeading ⟨0, -1, 0⟩ = 90 := by
  constructor
  · have h1 : atan2 (0:ℝ) 1 = 0 := by
      rw [atan2, if_pos (by norm_num : (0:ℝ) < 1)]
      norm_num
    simp [calculateHeading, h1]
  · have h2 : atan2 (1:ℝ) 0 = π / 2 := by
      rw [atan2, if_neg (by norm_num), if_neg (by norm_num), if_neg (by norm_num),
        if_pos (by norm_num : (0:ℝ) = 0 ∧ (0:ℝ) < 1)]
    have h3 : (π / 2) * (180 / π) = 90 := by
      field_simp
      ring
    have h4 : round (90:ℝ) = 90 := by
      rw [show (90:ℝ) = ((90:ℤ):ℝ) by norm_num, round_intCast]
    simp [calculateHeading, h2, h3, h4]

/-- C9: `calculateHeading` ignores the z component of its input: two
samples that agree on x and y give the same heading whatever their z. -/
theorem calculateHeading_ignores_z (s t : MagneticSample)
    (hx : s.x = t.x) (hy : s.y = t.y) :
    calculateHeading s = calculateHeading t := by
  obtain ⟨sx, sy, sz⟩ := s
  obtain ⟨tx, ty, tz⟩ := t
  simp only at hx hy
  subst hx
  subst hy
  rfl

/-- Witness for C9 at the concrete samples {x:3,y:4,z:5} and {x:3,y:4,z:-7}. -/
theorem calculateHeading_ignores_z_witness :
    (MagneticSample.mk 3 4 5).x = (MagneticSample.mk 3 4 (-7)).x ∧
      (MagneticSample.mk 3 4 5).y = (MagneticSample.mk 3 4 (-7)).y ∧
      calculateHeading ⟨3, 4, 5⟩ = calculateHeading ⟨3, 4, -7⟩ :=
  ⟨rfl, rfl, calculateHeading_ignores_z ⟨3, 4, 5⟩ ⟨3, 4, -7⟩ rfl rfl⟩

/-- C3: for every integer heading in [0,359], `getDirection` returns
exactly one non-empty label among the eight compass points, with the
sectors N = [337,360) ∪ [0,22], NE = (22,67], E = (67,112], SE = (112,157],
S = (157,202], SW = (202,247], W = (247,292], NW = (292,337); the
empty-string fallback is never taken. -/
theorem getDirection_partition (h : ℤ) (h0 : 0 ≤ h) (h1 : h ≤ 359) :
    getDirection h ≠ "" ∧
    getDirection h ∈ (["N", "NE", "E", "SE", "S", "SW", "W", "NW"] : List String) ∧
    (getDirection h = "N" ↔ 337 ≤ h ∨ h ≤ 22) ∧
    (getDirection h = "NE" ↔ 22 < h ∧ h ≤ 67) ∧
    (getDirection h = "E" ↔ 67 < h ∧ h ≤ 112) ∧
    (getDirection h = "SE" ↔ 112 < h ∧ h ≤ 157) ∧
    (getDirection h = "S" ↔ 157 < h ∧ h ≤ 202) ∧
    (getDirection h = "SW" ↔ 202 < h ∧ h ≤ 247) ∧
    (getDirection h = "W" ↔ 247 < h ∧ h ≤ 292) ∧
    (getDirection h = "NW" ↔ 292 < h ∧ h < 337) := by
  unfold getDirection
  split_ifs with c1 c2 c3 c4 c5 c6 c7 c8
  all_goals try (exfalso; omega)
  all_goals refine ⟨by decide, by decide, ?_, ?_, ?_, ?_, ?_, ?_, ?_, ?_⟩
  all_goals constructor
  all_goals intro hh
  all_goals first
    | omega
    | exact absurd hh (by decide)
    | rfl

/-- Witness for C3 at the boundary heading 22. -/
theorem getDirection_partition_witness :
    (0:ℤ) ≤ 22 ∧ (22:ℤ) ≤ 359 ∧
      (getDirection 22 ≠ "" ∧
        getDirection 22 ∈ (["N", "NE", "E", "SE", "S", "SW", "W", "NW"] : List String) ∧
        (getDirection 22 = "N" ↔ 337 ≤ (22:ℤ) ∨ (22:ℤ) ≤ 22) ∧
        (getDirection 22 = "NE" ↔ 22 < (22:ℤ) ∧ (22:ℤ) ≤ 67) ∧
        (getDirection 22 = "E" ↔ 67 < (22:ℤ) ∧ (22:ℤ) ≤ 112) ∧
        (getDirection 22 = "SE" ↔ 112 < (22:ℤ) ∧ (22:ℤ) ≤ 157) ∧
        (getDirection 22 = "S" ↔ 157 < (22:ℤ) ∧ (22:ℤ) ≤ 202) ∧
        (getDirection 22 = "SW" ↔ 202 < (22:ℤ) ∧ (22:ℤ) ≤ 247) ∧
        (getDirection 22 = "W" ↔ 247 < (22:ℤ) ∧ (22:ℤ) ≤ 292) ∧
        (getDirection 22 = "NW" ↔ 292 < (22:ℤ) ∧ (22:ℤ) < 337)) :=
  ⟨by decide, by decide, getDirection_partition 22 (by decide) (by decide)⟩

/-! ### Maidenhead-side helper lemmas -/

theorem jsMod_nonneg_lt (x y : ℚ) (hx : 0 ≤ x) (hy : 0 < y) :
    0 ≤ jsMod x y ∧ jsMod x y < y := by
  have htr : ratTrunc (x / y) = ⌊x / y⌋ := by
    unfold ratTrunc
    rw [if_pos (div_nonneg hx hy.le)]
  have heq : jsMod x y = y * Int.fract (x / y) := by
    unfold jsMod
    rw [htr, Int.fract]
    field_simp
  constructor
  · rw [heq]
    exact mul_nonneg hy.le (Int.fract_nonneg _)
  · rw [heq]
    calc y * Int.fract (x / y) < y * 1 := mul_lt_mul_of_pos_left (Int.fract_lt_one _) hy
      _ = y := mul_one y

theorem floor_nonneg_lt {x : ℚ} {n : ℤ} (h0 : 0 ≤ x) (h1 : x < n) :
    0 ≤ ⌊x⌋ ∧ ⌊x⌋ < n :=
  ⟨Int.floor_nonneg.mpr h0, Int.floor_lt.mpr (by exact_mod_cast h1)⟩

theorem lonFieldIdx_bounds (lon : ℚ) (h1 : -180 ≤ lon) (h2 : lon ≤ 180) :
    0 ≤ lonFieldIdx lon ∧ lonFieldIdx lon ≤ 18 ∧ (lon < 180 → lonFieldIdx lon < 18) := by
  unfold lonFieldIdx
  refine ⟨Int.floor_nonneg.mpr (by linarith), ?_, ?_⟩
  · have hle : (lon + 180) / 20 ≤ 18 := by
      rw [div_le_iff₀ (by norm_num : (0:ℚ) < 20)]
      linarith
    calc ⌊(lon + 180) / 20⌋ ≤ ⌊(18:ℚ)⌋ := Int.floor_le_floor hle
      _ = 18 := by norm_num
  · intro h
    apply Int.floor_lt.mpr
    push_cast
    rw [div_lt_iff₀ (by norm_num : (0:ℚ) < 20)]
    linarith

theorem latFieldIdx_bounds (lat : ℚ) (h1 : -90 ≤ lat) (h2 : lat ≤ 90) :
    0 ≤ latFieldIdx lat ∧ latFieldIdx lat ≤ 18 ∧ (lat < 90 → latFieldIdx lat < 18) := by
  unfold latFieldIdx
  refine ⟨Int.floor_nonneg.mpr (by linarith), ?_, ?_⟩
  · have hle : (lat + 90) / 10 ≤ 18 := by
      rw [div_le_iff₀ (by norm_num : (0:ℚ) < 10)]
      linarith
    calc ⌊(lat + 90) / 10⌋ ≤ ⌊(18:ℚ)⌋ := Int.floor_le_floor hle
      _ = 18 := by norm_num
  · intro h
    apply Int.floor_lt.mpr
    push_cast
    rw [div_lt_iff₀ (by norm_num : (0:ℚ) < 10)]
    linarith

theorem lonSquareIdx_bounds (lon : ℚ) (h1 : -180 ≤ lon) (h2 : lon ≤ 180) :
    0 ≤ lonSquareIdx lon ∧ lonSquareIdx lon ≤ 9 := by
  obtain ⟨m0, mlt⟩ := jsMod_nonneg_lt (lon + 180) 20 (by linarith) (by norm_num)
  unfold lonSquareIdx
  obtain ⟨f0, flt⟩ := floor_nonneg_lt (x := jsMod (lon + 180) 20 / 2) (n := 10)
    (div_nonneg m0 (by norm_num)) (by linarith)
  exact ⟨f0, by omega⟩

theorem latSquareIdx_bounds (lat : ℚ) (h1 : -90 ≤ lat) (h2 : lat ≤ 90) :
    0 ≤ latSquareIdx lat ∧ latSquareIdx lat ≤ 9 := by
  obtain ⟨m0, mlt⟩ := jsMod_nonneg_lt (lat + 90) 10 (by linarith) (by norm_num)
  unfold latSquareIdx
  obtain ⟨f0, flt⟩ := floor_nonneg_lt (x := jsMod (lat + 90) 10 / 1) (n := 10)
    (div_nonneg m0 (by norm_num)) (by linarith)
  exact ⟨f0, by omega⟩

theorem lonSubIdx_bounds (lon : ℚ) (h1 : -180 ≤ lon) (h2 : lon ≤ 180) :
    0 ≤ lonSubIdx lon ∧ lonSubIdx lon ≤ 23 := by
  obtain ⟨m0, mlt⟩ := jsMod_nonneg_lt (lon + 180) 2 (by linarith) (by norm_num)
  unfold lonSubIdx
  obtain ⟨f0, flt⟩ := floor_nonneg_lt (x := jsMod (lon + 180) 2 / 2 * 24) (n := 24)
    (mul_nonneg (div_nonneg m0 (by norm_num)) (by norm_num)) (by linarith)
  exact ⟨f0, by omega⟩

theorem latSubIdx_bounds (lat : ℚ) (h1 : -90 ≤ lat) (h2 : lat ≤ 90) :
    0 ≤ latSubIdx lat ∧ latSubIdx lat ≤ 23 := by
  obtain ⟨m0, mlt⟩ := jsMod_nonneg_lt (lat + 90) 1 (by linarith) (by norm_num)
  unfold latSubIdx
  obtain ⟨f0, flt⟩ := floor_nonneg_lt (x := jsMod (lat + 90) 1 * 24) (n := 24)
    (mul_nonneg m0 (by norm_num)) (by push_cast; linarith)
  exact ⟨f0, by omega⟩

theorem lonExtIdx_bounds (lon : ℚ) (h1 : -180 ≤ lon) (h2 : lon ≤ 180) :
    0 ≤ lonExtIdx lon ∧ lonExtIdx lon ≤ 23 := by
  obtain ⟨m0, mlt⟩ := jsMod_nonneg_lt ((lon + 180) * 60) 2
    (mul_nonneg (by linarith) (by norm_num)) (by norm_num)
  unfold lonExtIdx
  obtain ⟨f0, flt⟩ := floor_nonneg_lt (x := jsMod ((lon + 180) * 60) 2 * 60 / 5) (n := 24)
    (div_nonneg (mul_nonneg m0 (by norm_num)) (by norm_num)) (by linarith)
  exact ⟨f0, by omega⟩

theorem latExtIdx_bounds (lat : ℚ) (h1 : -90 ≤ lat) (h2 : lat ≤ 90) :
    0 ≤ latExtIdx lat ∧ latExtIdx lat ≤ 29 := by
  obtain ⟨m0, mlt⟩ := jsMod_nonneg_lt ((lat + 90) * 60) (5 / 2)
    (mul_nonneg (by linarith) (by norm_num)) (by norm_num)
  unfold latExtIdx
  obtain ⟨f0, flt⟩ := floor_nonneg_lt (x := jsMod ((lat + 90) * 60) (5 / 2) * 60 / 5) (n := 30)
    (div_nonneg (mul_nonneg m0 (by norm_num)) (by norm_num)) (by linarith)
  exact ⟨f0, by omega⟩

theorem jsIndexA_spec (i : ℤ) (h0 : 0 ≤ i) (h1 : i ≤ 25) :
    (jsIndex A i).data.length = 1 ∧
      ∀ c ∈ (jsIndex A i).data,
        c.isUpper = true ∧ c.toUpper = c ∧ c.isLower = false ∧ c.isDigit = false := by
  interval_cases i <;> decide

theorem jsIndexa_spec (i : ℤ) (h0 : 0 ≤ i) (h1 : i ≤ 25) :
    (jsIndex a i).data.length = 1 ∧
      ∀ c ∈ (jsIndex a i).data,
        c.isLower = true ∧ c.toLower = c ∧ c.isUpper = false ∧ c.isDigit = false := by
  interval_cases i <;> decide

theorem digits_spec (n : ℤ) (h0 : 0 ≤ n) (h1 : n ≤ 29) :
    1 ≤ (toString n).data.length ∧
      ((toString n).data.length = 1 ↔ n ≤ 9) ∧
      ∀ c ∈ (toString n).data,
        c.isDigit = true ∧ c.isLower = false ∧ c.isUpper = false := by
  interval_cases n <;> decide

/-- Structure of the encoder output for in-range input: six single
characters (uppercase, uppercase, digit, digit, lowercase, lowercase)
followed by the decimal renderings of `lonExtIdx` and `latExtIdx`. -/
theorem maiden8_structure (lat lon : ℚ)
    (ha : -90 ≤ lat) (hb : lat ≤ 90) (hc : -180 ≤ lon) (hd : lon ≤ 180) :
    ∃ c1 c2 c3 c4 c5 c6 : Char, ∃ t7 t8 : List Char,
      (latLonToMaiden8 lat lon).data = c1 :: c2 :: c3 :: c4 :: c5 :: c6 :: (t7 ++ t8) ∧
      t7 = (toString (lonExtIdx lon)).data ∧
      t8 = (toString (latExtIdx lat)).data ∧
      (c1.isUpper = true ∧ c1.toUpper = c1 ∧ c1.isLower = false ∧ c1.isDigit = false) ∧
      (c2.isUpper = true ∧ c2.toUpper = c2 ∧ c2.isLower = false ∧ c2.isDigit = false) ∧
      (c3.isDigit = true ∧ c3.isLower = false ∧ c3.isUpper = false) ∧
      (c4.isDigit = true ∧ c4.isLower = false ∧ c4.isUpper = false) ∧
      (c5.isLower = true ∧ c5.toLower = c5 ∧ c5.isUpper = false ∧ c5.isDigit = false) ∧
      (c6.isLower = true ∧ c6.toLower = c6 ∧ c6.isUpper = false ∧ c6.isDigit = false) ∧
      1 ≤ t7.length ∧ (t7.length = 1 ↔ lonExtIdx lon ≤ 9) ∧
      (∀ c ∈ t7, c.isDigit = true ∧ c.isLower = false ∧ c.isUpper = false) ∧
      1 ≤ t8.length ∧ (t8.length = 1 ↔ latExtIdx lat ≤ 9) ∧
      (∀ c ∈ t8, c.isDigit = true ∧ c.isLower = false ∧ c.isUpper = false) := by
  obtain ⟨hf0, hf18, _⟩ := lonFieldIdx_bounds lon hc hd
  obtain ⟨hg0, hg18, _⟩ := latFieldIdx_bounds lat ha hb
  obtain ⟨hq0, hq9⟩ := lonSquareIdx_bounds lon hc hd
  obtain ⟨hr0, hr9⟩ := latSquareIdx_bounds lat ha hb
  obtain ⟨hs0, hs23⟩ := lonSubIdx_bounds lon hc hd
  obtain ⟨hw0, hw23⟩ := latSubIdx_bounds lat ha hb
  obtain ⟨hu0, hu23⟩ := lonExtIdx_bounds lon hc hd
  obtain ⟨hv0, hv29⟩ := latExtIdx_bounds lat ha hb
  obtain ⟨hl1, hp1⟩ := jsIndexA_spec _ hf0 (by omega)
  obtain ⟨hl2, hp2⟩ := jsIndexA_spec _ hg0 (by omega)
  obtain ⟨hl3a, hl3b, hp3⟩ := digits_spec (lonSquareIdx lon) hq0 (by omega)
  obtain ⟨hl4a, hl4b, hp4⟩ := digits_spec (latSquareIdx lat) hr0 (by omega)
  obtain ⟨hl5, hp5⟩ := jsIndexa_spec _ hs0 (by omega)
  obtain ⟨hl6, hp6⟩ := jsIndexa_spec _ hw0 (by omega)
  obtain ⟨hl7a, hl7b, hp7⟩ := digits_spec (lonExtIdx lon) hu0 (by omega)
  obtain ⟨hl8a, hl8b, hp8⟩ := digits_spec (latExtIdx lat) hv0 (by omega)
  obtain ⟨c1, hc1⟩ := List.length_eq_one.mp hl1
  obtain ⟨c2, hc2⟩ := List.length_eq_one.mp hl2
  obtain ⟨c3, hc3⟩ := List.length_eq_one.mp (hl3b.mpr hq9)
  obtain ⟨c4, hc4⟩ := List.length_eq_one.mp (hl4b.mpr hr9)
  obtain ⟨c5, hc5⟩ := List.length_eq_one.mp hl5
  obtain ⟨c6, hc6⟩ := List.length_eq_one.mp hl6
  have hdata : (latLonToMaiden8 lat lon).data =
      (jsIndex A (lonFieldIdx lon)).data ++ (jsIndex A (latFieldIdx lat)).data ++
      (toString (lonSquareIdx lon)).data ++ (toString (latSquareIdx lat)).data ++
      (jsIndex a (lonSubIdx lon)).data ++ (jsIndex a (latSubIdx lat)).data ++
      (toString (lonExtIdx lon)).data ++ (toString (latExtIdx lat)).data := rfl
  refine ⟨c1, c2, c3, c4, c5, c6,
    (toString (lonExtIdx lon)).data, (toString (latExtIdx lat)).data,
    ?_, rfl, rfl, ?_, ?_, ?_, ?_, ?_, ?_, hl7a, hl7b, hp7, hl8a, hl8b, hp8⟩
  · rw [hdata, hc1, hc2, hc3, hc4, hc5, hc6]
    simp
  · exact hp1 c1 (by simp [hc1])
  · exact hp2 c2 (by simp [hc2])
  · exact hp3 c3 (by simp [hc3])
  · exact hp4 c4 (by simp [hc4])
  · exact hp5 c5 (by simp [hc5])
  · exact hp6 c6 (by simp [hc6])

/-! ### Maidenhead-side claim theorems -/

/-- C6 counterexample: at the in-range boundary input lon = 180 the
longitude field index is 18, not inside the claimed half-open range
[0,18); likewise lat = 90 gives latitude field index 18. -/
theorem fieldIdx_cex :
    ((-180:ℚ) ≤ 180 ∧ (180:ℚ) ≤ 180 ∧ lonFieldIdx 180 = 18) ∧
      ((-90:ℚ) ≤ 90 ∧ (90:ℚ) ≤ 90 ∧ latFieldIdx 90 = 18) ∧
      ¬ lonFieldIdx 180 < 18 := by
  refine ⟨⟨by norm_num, le_refl _, by norm_num [lonFieldIdx]⟩,
    ⟨by norm_num, le_refl _, by norm_num [latFieldIdx]⟩, ?_⟩
  rw [show lonFieldIdx 180 = 18 from by norm_num [lonFieldIdx]]
  omega

/-- C6 amended: for lat in [-90,90] and lon in [-180,180] the field
indices `lonField = floor((lon+180)/20)` and `latField = floor((lat+90)/10)`
lie in the closed range [0,18], hitting 18 only at the boundary inputs:
they lie in [0,18) whenever lon < 180 resp. lat < 90. -/
theorem fieldIdx_range (lat lon : ℚ)
    (ha : -90 ≤ lat) (hb : lat ≤ 90) (hc : -180 ≤ lon) (hd : lon ≤ 180) :
    (0 ≤ lonFieldIdx lon ∧ lonFieldIdx lon ≤ 18) ∧
      (0 ≤ latFieldIdx lat ∧ latFieldIdx lat ≤ 18) ∧
      (lon < 180 → lonFieldIdx lon < 18) ∧ (lat < 90 → latFieldIdx lat < 18) := by
  obtain ⟨h1, h2, h3⟩ := lonFieldIdx_bounds lon hc hd
  obtain ⟨h4, h5, h6⟩ := latFieldIdx_bounds lat ha hb
  exact ⟨⟨h1, h2⟩, ⟨h4, h5⟩, h3, h6⟩

/-- Witness for C6's amended statement at lat = 0, lon = 0. -/
theorem fieldIdx_range_witness :
    ((-90:ℚ) ≤ 0 ∧ (0:ℚ) ≤ 90 ∧ (-180:ℚ) ≤ 0 ∧ (0:ℚ) ≤ 180) ∧
      ((0 ≤ lonFieldIdx 0 ∧ lonFieldIdx 0 ≤ 18) ∧
        (0 ≤ latFieldIdx 0 ∧ latFieldIdx 0 ≤ 18) ∧
        ((0:ℚ) < 180 → lonFieldIdx 0 < 18) ∧ ((0:ℚ) < 90 → latFieldIdx 0 < 18)) :=
  ⟨by norm_num, fieldIdx_range 0 0 (by norm_num) (by norm_num) (by norm_num) (by norm_num)⟩

/-- C4 counterexample: at the in-range input lon = -10799/60
(i.e. lon + 180 = 1/60 degree, one arcminute) the extended-square index
`lonExt = floor((((lon+180)*60) mod 2) * 60 / 5)` is 12, outside the
claimed range [0,10), so the "seventh character" is the two-digit text
"12". -/
theorem lonExtIdx_cex :
    ((-180:ℚ) ≤ -10799/60 ∧ (-10799/60:ℚ) ≤ 180) ∧
      lonExtIdx (-10799/60) = 12 ∧ ¬ lonExtIdx (-10799/60) < 10 := by
  refine ⟨⟨by norm_num, by norm_num⟩, by norm_num [lonExtIdx, jsMod, ratTrunc], ?_⟩
  rw [show lonExtIdx (-10799/60) = 12 from by norm_num [lonExtIdx, jsMod, ratTrunc]]
  omega

/-- C4 amended: for lon in [-180,180] the longitude extended-square index
lies in [0,24) (not [0,10)): the formula `((arcmin mod 2) * 60) / 5`
scales a value below 2 by 12, so indices up to 23 occur and the rendered
digits can be two characters. -/
theorem lonExtIdx_range (lon : ℚ) (hc : -180 ≤ lon) (hd : lon ≤ 180) :
    0 ≤ lonExtIdx lon ∧ lonExtIdx lon < 24 := by
  obtain ⟨h1, h2⟩ := lonExtIdx_bounds lon hc hd
  exact ⟨h1, by omega⟩

/-- Witness for C4's amended statement at lon = 0. -/
theorem lonExtIdx_range_witness :
    ((-180:ℚ) ≤ 0 ∧ (0:ℚ) ≤ 180) ∧ (0 ≤ lonExtIdx 0 ∧ lonExtIdx 0 < 24) :=
  ⟨by norm_num, lonExtIdx_range 0 (by norm_num) (by norm_num)⟩

/-- C2 counterexample: at the in-range input lat = 0, lon = -10799/60 the
encoder returns the 9-character string "AJ00aa120", which cannot match an
8-character pattern. -/
theorem maiden8_pattern_cex :
    ((-90:ℚ) ≤ 0 ∧ (0:ℚ) ≤ 90 ∧ (-180:ℚ) ≤ -10799/60 ∧ (-10799/60:ℚ) ≤ 180) ∧
      latLonToMaiden8 0 (-10799/60) = "AJ00aa120" ∧
      (latLonToMaiden8 0 (-10799/60)).length = 9 := by
  have h : latLonToMaiden8 0 (-10799/60) = "AJ00aa120" := by
    rw [latLonToMaiden8,
      show lonFieldIdx (-10799/60) = 0 from by norm_num [lonFieldIdx],
      show latFieldIdx 0 = 9 from by norm_num [latFieldIdx],
      show lonSquareIdx (-10799/60) = 0 from by norm_num [lonSquareIdx, jsMod, ratTrunc],
      show latSquareIdx 0 = 0 from by norm_num [latSquareIdx, jsMod, ratTrunc],
      show lonSubIdx (-10799/60) = 0 from by norm_num [lonSubIdx, jsMod, ratTrunc],
      show latSubIdx 0 = 0 from by norm_num [latSubIdx, jsMod, ratTrunc],
      show lonExtIdx (-10799/60) = 12 from by norm_num [lonExtIdx, jsMod, ratTrunc],
      show latExtIdx 0 = 0 from by norm_num [latExtIdx, jsMod, ratTrunc]]
    decide
  exact ⟨by norm_num, h, by rw [h]; decide⟩

/-- C2 amended: for lat in [-90,90] and lon in [-180,180] the encoder
output starts with two uppercase letters, two digits and two lowercase
letters, and everything after position 6 is decimal digits; its length is
at least 8, and it is exactly 8 (hence matching the claimed two-uppercase,
two-digit, two-lowercase, two-digit pattern) precisely when both
extended-square indices are single digits, which fails for some in-range
inputs. -/
theorem maiden8_shape (lat lon : ℚ)
    (ha : -90 ≤ lat) (hb : lat ≤ 90) (hc : -180 ≤ lon) (hd : lon ≤ 180) :
    8 ≤ (latLonToMaiden8 lat lon).length ∧
    (∀ c ∈ (latLonToMaiden8 lat lon).data.take 2, c.isUpper = true) ∧
    (∀ c ∈ ((latLonToMaiden8 lat lon).data.drop 2).take 2, c.isDigit = true) ∧
    (∀ c ∈ ((latLonToMaiden8 lat lon).data.drop 4).take 2, c.isLower = true) ∧
    (∀ c ∈ (latLonToMaiden8 lat lon).data.drop 6, c.isDigit = true) ∧
    ((latLonToMaiden8 lat lon).length = 8 ↔ lonExtIdx lon ≤ 9 ∧ latExtIdx lat ≤ 9) := by
  obtain ⟨c1, c2, c3, c4, c5, c6, t7, t8, hdata, ht7, ht8,
      p1, p2, p3, p4, p5, p6, l7, i7, m7, l8, i8, m8⟩ :=
    maiden8_structure lat lon ha hb hc hd
  have hlen : (latLonToMaiden8 lat lon).length = 6 + (t7.length + t8.length) := by
    show (latLonToMaiden8 lat lon).data.length = _
    rw [hdata]
    simp [List.length_append]
    omega
  refine ⟨by omega, ?_, ?_, ?_, ?_, ?_⟩
  · rw [hdata]
    intro c hcm
    simp at hcm
    rcases hcm with rfl | rfl
    · exact p1.1
    · exact p2.1
  · rw [hdata]
    intro c hcm
    simp at hcm
    rcases hcm with rfl | rfl
    · exact p3.1
    · exact p4.1
  · rw [hdata]
    intro c hcm
    simp at hcm
    rcases hcm with rfl | rfl
    · exact p5.1
    · exact p6.1
  · rw [hdata]
    intro c hcm
    simp at hcm
    rcases hcm with hm | hm
    · exact (m7 c hm).1
    · exact (m8 c hm).1
  · rw [hlen]
    omega

/-- Witness for C2's amended statement at lat = 0, lon = 0. -/
theorem maiden8_shape_witness :
    ((-90:ℚ) ≤ 0 ∧ (0:ℚ) ≤ 90 ∧ (-180:ℚ) ≤ 0 ∧ (0:ℚ) ≤ 180) ∧
      (8 ≤ (latLonToMaiden8 0 0).length ∧
        (∀ c ∈ (latLonToMaiden8 0 0).data.take 2, c.isUpper = true) ∧
        (∀ c ∈ ((latLonToMaiden8 0 0).data.drop 2).take 2, c.isDigit = true) ∧
        (∀ c ∈ ((latLonToMaiden8 0 0).data.drop 4).take 2, c.isLower = true) ∧
        (∀ c ∈ (latLonToMaiden8 0 0).data.drop 6, c.isDigit = true) ∧
        ((latLonToMaiden8 0 0).length = 8 ↔ lonExtIdx 0 ≤ 9 ∧ latExtIdx 0 ≤ 9)) :=
  ⟨by norm_num, maiden8_shape 0 0 (by norm_num) (by norm_num) (by norm_num) (by norm_num)⟩

/-- C5: the Greenwich Observatory coordinate (51.4780, -0.0015) encodes to
a locator with field "IO" and 4-character prefix "IO91" (the full raw
output being "IO91xl2214", whose extended digits overflow per C4). -/
theorem greenwich_locator_field :
    latLonToMaiden8 (51.4780 : ℚ) (-0.0015 : ℚ) = "IO91xl2214" ∧
      jsSlice (latLonToMaiden8 (51.4780 : ℚ) (-0.0015 : ℚ)) 0 2 = "IO" ∧
      jsSlice (latLonToMaiden8 (51.4780 : ℚ) (-0.0015 : ℚ)) 0 4 = "IO91" := by
  have h : latLonToMaiden8 (51.4780 : ℚ) (-0.0015 : ℚ) = "IO91xl2214" := by
    rw [latLonToMaiden8,
      show lonFieldIdx (-0.0015 : ℚ) = 8 from by norm_num [lonFieldIdx],
      show latFieldIdx (51.4780 : ℚ) = 14 from by norm_num [latFieldIdx],
      show lonSquareIdx (-0.0015 : ℚ) = 9 from by norm_num [lonSquareIdx, jsMod, ratTrunc],
      show latSquareIdx (51.4780 : ℚ) = 1 from by norm_num [latSquareIdx, jsMod, ratTrunc],
      show lonSubIdx (-0.0015 : ℚ) = 23 from by norm_num [lonSubIdx, jsMod, ratTrunc],
      show latSubIdx (51.4780 : ℚ) = 11 from by norm_num [latSubIdx, jsMod, ratTrunc],
      show lonExtIdx (-0.0015 : ℚ) = 22 from by norm_num [lonExtIdx, jsMod, ratTrunc],
      show latExtIdx (51.4780 : ℚ) = 14 from by norm_num [latExtIdx, jsMod, ratTrunc]]
    decide
  refine ⟨h, ?_, ?_⟩ <;> rw [h] <;> decide

/-- C8: the formatted grid string built in the GPS callback
(slice(0,2).toUpperCase() + slice(2,4) + slice(4,6).toLowerCase() +
slice(6,8)) equals the first 8 characters of the raw encoder output, and
when that output has exactly 8 characters the case post-processing is the
identity. -/
theorem formattedGrid_eq_first8 (lat lon : ℚ)
    (ha : -90 ≤ lat) (hb : lat ≤ 90) (hc : -180 ≤ lon) (hd : lon ≤ 180) :
    formattedGrid lat lon = String.mk ((latLonToMaiden8 lat lon).data.take 8) ∧
    ((latLonToMaiden8 lat lon).length = 8 →
      formattedGrid lat lon = latLonToMaiden8 lat lon) := by
  obtain ⟨c1, c2, c3, c4, c5, c6, t7, t8, hdata, ht7, ht8,
      p1, p2, p3, p4, p5, p6, l7, i7, m7, l8, i8, m8⟩ :=
    maiden8_structure lat lon ha hb hc hd
  have htake : (latLonToMaiden8 lat lon).data.take 8 =
      c1 :: c2 :: c3 :: c4 :: c5 :: c6 :: ((t7 ++ t8).take 2) := by
    rw [hdata]
    rfl
  have hfmt : formattedGrid lat lon = String.mk
      (c1.toUpper :: c2.toUpper :: c3 :: c4 :: c5.toLower :: c6.toLower ::
        ((t7 ++ t8).take 2)) := by
    show jsToUpperCase (jsSlice (latLonToMaiden8 lat lon) 0 2) ++
        jsSlice (latLonToMaiden8 lat lon) 2 4 ++
        jsToLowerCase (jsSlice (latLonToMaiden8 lat lon) 4 6) ++
        jsSlice (latLonToMaiden8 lat lon) 6 8 = _
    rw [jsSlice, jsSlice, jsSlice, jsSlice, hdata]
    rfl
  have hmain : formattedGrid lat lon = String.mk ((latLonToMaiden8 lat lon).data.take 8) := by
    rw [hfmt, htake, p1.2.1, p2.2.1, p5.2.1, p6.2.1]
  refine ⟨hmain, ?_⟩
  intro h8
  rw [hmain]
  have hlen : (latLonToMaiden8 lat lon).data.length = 8 := h8
  rw [← hlen, List.take_length]

/-- Witness for C8 at lat = 0, lon = 0. -/
theorem formattedGrid_eq_first8_witness :
    ((-90:ℚ) ≤ 0 ∧ (0:ℚ) ≤ 90 ∧ (-180:ℚ) ≤ 0 ∧ (0:ℚ) ≤ 180) ∧
      (formattedGrid 0 0 = String.mk ((latLonToMaiden8 0 0).data.take 8) ∧
        ((latLonToMaiden8 0 0).length = 8 → formattedGrid 0 0 = latLonToMaiden8 0 0)) :=
  ⟨by norm_num,
    formattedGrid_eq_first8 0 0 (by norm_num) (by norm_num) (by norm_num) (by norm_num)⟩

/-- C10: for in-range input all four letter-table indices are in bounds
for the 26-character alphabets (field indices at most 18, subsquare
indices at most 23), and the encoder output never contains the text
"undefined" as a contiguous substring. -/
theorem maiden8_indices_in_bounds_no_undefined (lat lon : ℚ)
    (ha : -90 ≤ lat) (hb : lat ≤ 90) (hc : -180 ≤ lon) (hd : lon ≤ 180) :
    (0 ≤ lonFieldIdx lon ∧ lonFieldIdx lon ≤ 18) ∧
    (0 ≤ latFieldIdx lat ∧ latFieldIdx lat ≤ 18) ∧
    (0 ≤ lonSubIdx lon ∧ lonSubIdx lon ≤ 23) ∧
    (0 ≤ latSubIdx lat ∧ latSubIdx lat ≤ 23) ∧
    ∀ l1 l2 : List Char, (latLonToMaiden8 lat lon).data ≠ l1 ++ "undefined".data ++ l2 := by
  obtain ⟨c1, c2, c3, c4, c5, c6, t7, t8, hdata, ht7, ht8,
      p1, p2, p3, p4, p5, p6, l7, i7, m7, l8, i8, m8⟩ :=
    maiden8_structure lat lon ha hb hc hd
  refine ⟨⟨(lonFieldIdx_bounds lon hc hd).1, (lonFieldIdx_bounds lon hc hd).2.1⟩,
    ⟨(latFieldIdx_bounds lat ha hb).1, (latFieldIdx_bounds lat ha hb).2.1⟩,
    lonSubIdx_bounds lon hc hd, latSubIdx_bounds lat ha hb, ?_⟩
  intro l1 l2 heq
  have h7 : List.countP (fun c => c.isLower) t7 = 0 :=
    List.countP_eq_zero.mpr (fun c hcm => by simp [(m7 c hcm).2.1])
  have h8 : List.countP (fun c => c.isLower) t8 = 0 :=
    List.countP_eq_zero.mpr (fun c hcm => by simp [(m8 c hcm).2.1])
  have hcount : List.countP (fun c => c.isLower) (latLonToMaiden8 lat lon).data ≤ 2 := by
    rw [hdata]
    simp [List.countP_cons, List.countP_append, h7, h8,
      p1.2.2.1, p2.2.2.1, p3.2.1, p4.2.1, p5.1, p6.1]
  have h9 : List.countP (fun c => c.isLower) "undefined".data = 9 := by decide
  have hsub : List.Sublist "undefined".data (latLonToMaiden8 lat lon).data := by
    rw [heq]
    exact (List.sublist_append_right l1 "undefined".data).trans
      (List.sublist_append_left (l1 ++ "undefined".data) l2)
  have hle := hsub.countP_le (fun c => c.isLower)
  omega

/-- Witness for C10 at lat = 0, lon = 0. -/
theorem maiden8_indices_witness :
    ((-90:ℚ) ≤ 0 ∧ (0:ℚ) ≤ 90 ∧ (-180:ℚ) ≤ 0 ∧ (0:ℚ) ≤ 180) ∧
      ((0 ≤ lonFieldIdx 0 ∧ lonFieldIdx 0 ≤ 18) ∧
        (0 ≤ latFieldIdx 0 ∧ latFieldIdx 0 ≤ 18) ∧
        (0 ≤ lonSubIdx 0 ∧ lonSubIdx 0 ≤ 23) ∧
        (0 ≤ latSubIdx 0 ∧ latSubIdx 0 ≤ 23) ∧
        ∀ l1 l2 : List Char, (latLonToMaiden8 0 0).data ≠ l1 ++ "undefined".data ++ l2) :=
  ⟨by norm_num,
    maiden8_indices_in_bounds_no_undefined 0 0
      (by norm_num) (by norm_num) (by norm_num) (by norm_num)⟩

end HamCompass
